import Mathlib

/-
Verification of the BioVault Desktop agent client
(examples/agent-client/biovault_agent.py): request/response multiplexing
over a single connection, event dispatch, timeout tiers, and teardown.

The Python client is shallowly embedded: each method of `BioVaultAgent`
becomes a pure Lean function over an explicit `ClientState`; the
`asyncio.Future` completion slots become the inductive `Fut`; the
background `_receive_loop` becomes a fold over the list of inbound frames;
`asyncio.wait_for` becomes `waitFor`, driven by an `Await` value that
summarises what settles the future during the wait.
-/

namespace BioVaultClient

/-- JSON values, as produced by `json.loads` on an inbound text frame. -/
inductive JVal where
  | null : JVal
  | bool (b : Bool) : JVal
  | num (n : Int) : JVal
  | str (s : String) : JVal
  | arr (xs : List JVal) : JVal
  | obj (kvs : List (String × JVal)) : JVal

/-- A decoded inbound message (a Python dict), restricted to the keys the
client reads: `data.get("id")`, membership of `"type"`, `"result"`,
`"error"` (a string on the wire), and `"data"`. A `none` field means the
key is absent from the dict. -/
structure Message where
  id : Option Int
  tkind : Option String
  result : Option JVal
  error : Option String
  payload : Option JVal

/-- Python truthiness of `self.config.token` / `response["error"]` for an
optional string: present and non-empty. -/
def truthyStr : Option String → Bool
  | none => false
  | some s => s ≠ ""

/-- `AgentEvent` dataclass. -/
structure AgentEvent where
  request_id : Int
  event_type : String
  data : JVal

/-- `AgentEvent.from_dict`: `id` defaults to 0, `type` to "unknown",
`data` to the empty dict. -/
def AgentEvent.from_dict (m : Message) : AgentEvent :=
  { request_id := m.id.getD 0
    event_type := m.tkind.getD "unknown"
    data := m.payload.getD (JVal.obj []) }

/-- Errors the client can raise (`BioVaultAgentError` with its message,
plus external task cancellation). -/
inductive AgentError where
  | notConnected : AgentError
  | connectionClosed : AgentError
  | timeoutWaiting (cmd : String) : AgentError
  | remote (msg : String) : AgentError
  | cancelled : AgentError
deriving DecidableEq

/-- State of one `asyncio.Future` completion slot in `self._pending`. -/
inductive Fut where
  | pending : Fut
  | result (m : Message) : Fut
  | exn (e : AgentError) : Fut

/-- `future.done()`. -/
def Fut.done : Fut → Bool
  | .pending => false
  | _ => true

/-- Python dict lookup `d[k]` / `k in d` on an association list. -/
def dictGet {α : Type} (m : List (Int × α)) (k : Int) : Option α :=
  match m with
  | [] => none
  | (k', v) :: rest => if k' = k then some v else dictGet rest k

/-- Python dict assignment `d[k] = v`: replace the binding if present,
otherwise append. -/
def dictSet {α : Type} (m : List (Int × α)) (k : Int) (v : α) : List (Int × α) :=
  match m with
  | [] => [(k, v)]
  | (k', v') :: rest =>
      if k' = k then (k, v) :: rest else (k', v') :: dictSet rest k v

/-- Python `d.pop(k, None)`: remove the binding for `k` if present. -/
def dictPop {α : Type} (m : List (Int × α)) (k : Int) : List (Int × α) :=
  match m with
  | [] => []
  | (k', v') :: rest =>
      if k' = k then dictPop rest k else (k', v') :: dictPop rest k

theorem dictGet_dictSet_eq {α : Type} (m : List (Int × α)) (k : Int) (v : α) :
    dictGet (dictSet m k v) k = some v := by
  induction m with
  | nil => simp [dictSet, dictGet]
  | cons hd tl ih =>
      obtain ⟨k', v'⟩ := hd
      by_cases h : k' = k <;> simp [dictSet, dictGet, h, ih]

theorem dictGet_dictSet_ne {α : Type} (m : List (Int × α)) (k j : Int) (v : α)
    (h : k ≠ j) : dictGet (dictSet m k v) j = dictGet m j := by
  induction m with
  | nil => simp [dictSet, dictGet, h]
  | cons hd tl ih =>
      obtain ⟨k', v'⟩ := hd
      by_cases hk : k' = k
      · subst hk
        simp [dictSet, dictGet, h]
      · simp [dictSet, dictGet, hk, ih]

theorem dictGet_dictPop_eq {α : Type} (m : List (Int × α)) (k : Int) :
    dictGet (dictPop m k) k = none := by
  induction m with
  | nil => simp [dictPop, dictGet]
  | cons hd tl ih =>
      obtain ⟨k', v'⟩ := hd
      by_cases h : k' = k <;> simp [dictPop, dictGet, h, ih]

theorem dictGet_dictPop_ne {α : Type} (m : List (Int × α)) (k j : Int)
    (h : k ≠ j) : dictGet (dictPop m k) j = dictGet m j := by
  induction m with
  | nil => simp [dictPop, dictGet]
  | cons hd tl ih =>
      obtain ⟨k', v'⟩ := hd
      by_cases hk : k' = k
      · subst hk
        simp [dictPop, dictGet, h, ih]
      · simp [dictPop, dictGet, hk, ih]

theorem dictPop_dictSet {α : Type} (m : List (Int × α)) (k : Int) (v : α) :
    dictPop (dictSet m k v) k = dictPop m k := by
  induction m with
  | nil => simp [dictSet, dictPop]
  | cons hd tl ih =>
      obtain ⟨k', v'⟩ := hd
      by_cases h : k' = k <;> simp [dictSet, dictPop, h, ih]

/-- `AgentConfig` dataclass (fields the request path reads). -/
structure AgentConfig where
  token : Option String
  timeout : ℚ
  long_timeout : ℚ

/-- Default `AgentConfig` values: `timeout: float = 30.0`,
`long_timeout: float = 180.0`, `token: Optional[str] = None`. -/
def AgentConfig.default : AgentConfig :=
  { token := none, timeout := 30, long_timeout := 180 }

/-- `BioVaultAgent.LONG_RUNNING_COMMANDS`. -/
def LONG_RUNNING_COMMANDS : List String :=
  [ "launch_jupyter", "stop_jupyter", "reset_jupyter",
    "launch_session_jupyter", "stop_session_jupyter",
    "reset_session_jupyter", "sync_messages",
    "sync_messages_with_failures", "refresh_messages_batched",
    "install_dependencies", "install_dependency", "install_brew",
    "install_command_line_tools", "import_pipeline_with_deps",
    "run_pipeline", "syftbox_upload_action" ]

/-- An outbound request frame, as built by `invoke` /
`invoke_with_events` before `json.dumps`. -/
structure Request where
  id : Int
  cmd : String
  args : List (String × JVal)
  token : Option String

/-- Mutable state of a `BioVaultAgent` object: `self._ws` (whether a
transport is held), `self._request_id`, `self._pending`,
`self._event_handlers` (the set of ids with a registered callback; the
callback itself only ever observes events, recorded in `sinkTrace`),
plus the observable history of frames written to the transport
(`sinkTrace` and `sent` are histories, not Python attributes). -/
structure ClientState where
  ws : Bool
  request_id : Int
  pending : List (Int × Fut)
  handlers : List Int
  sinkTrace : List (Int × AgentEvent)
  sent : List Request

/-- `BioVaultAgent.__init__`. -/
def initState : ClientState :=
  { ws := false, request_id := 0, pending := [], handlers := [],
    sinkTrace := [], sent := [] }

/-- `BioVaultAgent.connect`: opens the transport and starts the receive
loop task. It does not touch `_request_id`, `_pending` or
`_event_handlers`. -/
def connect (st : ClientState) : ClientState :=
  { st with ws := true }

/-- An inbound text frame: either decodable (`json.loads` succeeds,
yielding a `Message`) or not (`json.loads` raises). -/
inductive Frame where
  | garbage : Frame
  | msg (m : Message) : Frame

/-- An exception escaping the body of `_receive_loop` (its `try` catches
only `websockets.ConnectionClosed`). -/
inductive LoopCrash where
  | decodeError : LoopCrash
  | invalidState : LoopCrash
deriving DecidableEq

/-- The body of `_receive_loop` for one decoded message: a message with a
`"type"` key is a streaming event, dispatched to the registered handler
if any (handler exceptions are caught and printed, so dispatch always
succeeds); otherwise, an id found in `_pending` gets `set_result` — which
raises `InvalidStateError` if that future is already done — and an
unknown id is dropped. -/
def routeMsg (st : ClientState) (data : Message) : Except LoopCrash ClientState :=
  match data.id with
  | none => Except.ok st
  | some rid =>
      if data.tkind.isSome then
        if rid ∈ st.handlers then
          Except.ok { st with
            sinkTrace := st.sinkTrace ++ [(rid, AgentEvent.from_dict data)] }
        else Except.ok st
      else
        match dictGet st.pending rid with
        | none => Except.ok st
        | some Fut.pending =>
            Except.ok { st with pending := dictSet st.pending rid (Fut.result data) }
        | some _ => Except.error LoopCrash.invalidState

/-- One iteration of `_receive_loop`: `json.loads` then route. -/
def stepFrame (st : ClientState) (f : Frame) : Except LoopCrash ClientState :=
  match f with
  | Frame.garbage => Except.error LoopCrash.decodeError
  | Frame.msg m => routeMsg st m

/-- Result of running the loop body over a list of frames: either all
frames were consumed, or an uncaught exception terminated the task at
some frame, leaving the state as it was at that point. -/
inductive RunOutcome where
  | ok (st : ClientState) : RunOutcome
  | crashed (e : LoopCrash) (st : ClientState) : RunOutcome

/-- The client state carried by a `RunOutcome`. -/
def RunOutcome.state : RunOutcome → ClientState
  | RunOutcome.ok st => st
  | RunOutcome.crashed _ st => st

/-- `_receive_loop`'s `async for` over a finite prefix of inbound frames. -/
def runFrames (st : ClientState) (frames : List Frame) : RunOutcome :=
  match frames with
  | [] => RunOutcome.ok st
  | f :: rest =>
      match stepFrame st f with
      | Except.ok st' => runFrames st' rest
      | Except.error e => RunOutcome.crashed e st

/-- The `except websockets.ConnectionClosed` handler: every not-yet-done
pending future gets `BioVaultAgentError("Connection closed")`; done
futures are left alone. -/
def failAll (p : List (Int × Fut)) : List (Int × Fut) :=
  p.map (fun kv =>
    match kv.2 with
    | Fut.pending => (kv.1, Fut.exn AgentError.connectionClosed)
    | f => (kv.1, f))

/-- How the `async for` of `_receive_loop` terminates after the frames:
the transport raises `ConnectionClosed`, the iterator ends normally, or
the task is cancelled (`CancelledError` raised at the read point). -/
inductive LoopEnd where
  | closedError : LoopEnd
  | closedNormal : LoopEnd
  | cancelled : LoopEnd

/-- Final fate of the `_receive_loop` task. -/
inductive LoopFinal where
  | exited (st : ClientState) : LoopFinal
  | raised (e : LoopCrash) (st : ClientState) : LoopFinal
  | cancelledOut (st : ClientState) : LoopFinal

/-- The client state carried by a `LoopFinal`. -/
def LoopFinal.state : LoopFinal → ClientState
  | LoopFinal.exited st => st
  | LoopFinal.raised _ st => st
  | LoopFinal.cancelledOut st => st

/-- The whole `_receive_loop` task: process frames; on
`ConnectionClosed` run the `except` handler (fail all pending) and
return; on normal iterator end return without it; on cancellation the
`CancelledError` propagates — the `try` does not catch it, so the
handler does not run. -/
def receiveLoop (st : ClientState) (frames : List Frame) (e : LoopEnd) : LoopFinal :=
  match runFrames st frames with
  | RunOutcome.crashed c st' => LoopFinal.raised c st'
  | RunOutcome.ok st' =>
      match e with
      | LoopEnd.closedError => LoopFinal.exited { st' with pending := failAll st'.pending }
      | LoopEnd.closedNormal => LoopFinal.exited st'
      | LoopEnd.cancelled => LoopFinal.cancelledOut st'

/-- `BioVaultAgent.disconnect`: cancel the receiver task, await it
(swallowing the `CancelledError`), then close the transport. The loop is
cancelled before reading further frames, so its state is whatever it was;
only `ws` changes. -/
def disconnect (st : ClientState) : ClientState :=
  { (receiveLoop st [] LoopEnd.cancelled).state with ws := false }

/-- What settles this call's future while `invoke` awaits it, with the
delay (relative to the start of the wait) at which it happens: the
receive loop calls `set_result` with a response message, `fail_all`
calls `set_exception` with `BioVaultAgentError("Connection closed")`,
the awaiting task is cancelled from outside, or nothing ever settles
it. -/
inductive Await where
  | settleResult (t : ℚ) (m : Message) : Await
  | settleExn (t : ℚ) : Await
  | cancelled (t : ℚ) : Await
  | never : Await

/-- Outcome of `asyncio.wait_for(future, timeout=limit)`. -/
inductive WaitRes where
  | value (m : Message) : WaitRes
  | connLost : WaitRes
  | cancelled : WaitRes
  | timedOut : WaitRes

/-- `asyncio.wait_for` semantics: whatever settles (or cancels) the wait
within the limit wins; otherwise `asyncio.TimeoutError` fires. -/
def waitFor (aw : Await) (limit : ℚ) : WaitRes :=
  match aw with
  | Await.never => WaitRes.timedOut
  | Await.settleResult t m => if t ≤ limit then WaitRes.value m else WaitRes.timedOut
  | Await.settleExn t => if t ≤ limit then WaitRes.connLost else WaitRes.timedOut
  | Await.cancelled t => if t ≤ limit then WaitRes.cancelled else WaitRes.timedOut

/-- The timeout-selection block shared by `invoke` and
`invoke_with_events`: an explicit `timeout` argument wins; otherwise
commands in `LONG_RUNNING_COMMANDS` get `config.long_timeout`, all
others `config.timeout`. -/
def effectiveTimeout (cfg : AgentConfig) (cmd : String) (timeout : Option ℚ) : ℚ :=
  match timeout with
  | some t => t
  | none =>
      if cmd ∈ LONG_RUNNING_COMMANDS then cfg.long_timeout else cfg.timeout

/-- What an `invoke` call does from the caller's point of view: return
`response.get("result")` or raise. -/
inductive InvokeOutcome where
  | ok (v : Option JVal) : InvokeOutcome
  | err (e : AgentError) : InvokeOutcome

/-- The post-wait block of `invoke`: a truthy `"error"` value raises
`BioVaultAgentError(response["error"])`, otherwise
`response.get("result")` is returned. -/
def settleOutcome (response : Message) : InvokeOutcome :=
  if truthyStr response.error then
    InvokeOutcome.err (AgentError.remote (response.error.getD ""))
  else
    InvokeOutcome.ok response.result

/-- `BioVaultAgent.invoke(cmd, args, timeout)`. `aw` summarises what, if
anything, settles this call's future during the wait. -/
def invoke (cfg : AgentConfig) (st : ClientState) (cmd : String)
    (args : Option (List (String × JVal))) (timeout : Option ℚ)
    (aw : Await) : InvokeOutcome × ClientState :=
  if st.ws = false then
    (InvokeOutcome.err AgentError.notConnected, st)
  else
    let rid := st.request_id + 1
    let req : Request :=
      { id := rid, cmd := cmd, args := args.getD [],
        token := if truthyStr cfg.token then cfg.token else none }
    let eff := effectiveTimeout cfg cmd timeout
    let st1 : ClientState :=
      { st with request_id := rid,
                pending := dictSet st.pending rid Fut.pending,
                sent := st.sent ++ [req] }
    let st2 : ClientState := { st1 with pending := dictPop st1.pending rid }
    match waitFor aw eff with
    | WaitRes.timedOut => (InvokeOutcome.err (AgentError.timeoutWaiting cmd), st2)
    | WaitRes.connLost => (InvokeOutcome.err AgentError.connectionClosed, st2)
    | WaitRes.cancelled => (InvokeOutcome.err AgentError.cancelled, st2)
    | WaitRes.value response => (settleOutcome response, st2)

/-- `BioVaultAgent.invoke_with_events(cmd, args, on_event, timeout)`.
`on_event` records whether a (truthy) callback was supplied; the `finally`
block pops both the pending entry and the event handler. -/
def invoke_with_events (cfg : AgentConfig) (st : ClientState) (cmd : String)
    (args : Option (List (String × JVal))) (on_event : Bool) (timeout : Option ℚ)
    (aw : Await) : InvokeOutcome × ClientState :=
  if st.ws = false then
    (InvokeOutcome.err AgentError.notConnected, st)
  else
    let rid := st.request_id + 1
    let req : Request :=
      { id := rid, cmd := cmd, args := args.getD [],
        token := if truthyStr cfg.token then cfg.token else none }
    let eff := effectiveTimeout cfg cmd timeout
    let st1 : ClientState :=
      { st with request_id := rid,
                pending := dictSet st.pending rid Fut.pending,
                handlers := if on_event then
                    (if rid ∈ st.handlers then st.handlers
                     else st.handlers ++ [rid])
                  else st.handlers,
                sent := st.sent ++ [req] }
    let st2 : ClientState :=
      { st1 with pending := dictPop st1.pending rid,
                 handlers := st1.handlers.filter (fun j => j ≠ rid) }
    match waitFor aw eff with
    | WaitRes.timedOut => (InvokeOutcome.err (AgentError.timeoutWaiting cmd), st2)
    | WaitRes.connLost => (InvokeOutcome.err AgentError.connectionClosed, st2)
    | WaitRes.cancelled => (InvokeOutcome.err AgentError.cancelled, st2)
    | WaitRes.value response => (settleOutcome response, st2)

theorem dictGet_failAll (p : List (Int × Fut)) (i : Int) :
    dictGet (failAll p) i
      = (dictGet p i).map (fun f =>
          match f with
          | Fut.pending => Fut.exn AgentError.connectionClosed
          | f => f) := by
  induction p with
  | nil => simp [failAll, dictGet]
  | cons hd tl ih =>
      obtain ⟨k, v⟩ := hd
      by_cases h : k = i
      · subst h
        cases v <;> simp [failAll, dictGet]
      · cases v <;> simpa [failAll, dictGet, h] using ih

theorem not_mem_filter_ne (l : List Int) (k : Int) :
    k ∉ l.filter (fun j => j ≠ k) := by
  simp [List.mem_filter]

/-- The request frame built by `invoke` / `invoke_with_events` from state
`st`: the next id, the command, `args or {}`, and the token when the
configured one is truthy. -/
def builtRequest (cfg : AgentConfig) (st : ClientState) (cmd : String)
    (args : Option (List (String × JVal))) : Request :=
  { id := st.request_id + 1, cmd := cmd, args := args.getD [],
    token := if truthyStr cfg.token then cfg.token else none }

theorem invoke_snd (cfg : AgentConfig) (st : ClientState) (cmd : String)
    (args : Option (List (String × JVal))) (t : Option ℚ) (aw : Await)
    (h : st.ws = true) :
    (invoke cfg st cmd args t aw).2 =
      { st with request_id := st.request_id + 1,
                pending := dictPop st.pending (st.request_id + 1),
                sent := st.sent ++ [builtRequest cfg st cmd args] } := by
  unfold invoke builtRequest
  rcases hw : waitFor aw (effectiveTimeout cfg cmd t) <;>
    simp [h, hw, dictPop_dictSet]

theorem invoke_fst (cfg : AgentConfig) (st : ClientState) (cmd : String)
    (args : Option (List (String × JVal))) (t : Option ℚ) (aw : Await)
    (h : st.ws = true) :
    (invoke cfg st cmd args t aw).1 =
      match waitFor aw (effectiveTimeout cfg cmd t) with
      | WaitRes.timedOut => InvokeOutcome.err (AgentError.timeoutWaiting cmd)
      | WaitRes.connLost => InvokeOutcome.err AgentError.connectionClosed
      | WaitRes.cancelled => InvokeOutcome.err AgentError.cancelled
      | WaitRes.value response => settleOutcome response := by
  unfold invoke
  rcases hw : waitFor aw (effectiveTimeout cfg cmd t) <;> simp [h, hw]

theorem invoke_with_events_snd (cfg : AgentConfig) (st : ClientState) (cmd : String)
    (args : Option (List (String × JVal))) (oe : Bool) (t : Option ℚ) (aw : Await)
    (h : st.ws = true) :
    (invoke_with_events cfg st cmd args oe t aw).2 =
      { st with request_id := st.request_id + 1,
                pending := dictPop st.pending (st.request_id + 1),
                handlers :=
                  (if oe then
                     (if st.request_id + 1 ∈ st.handlers then st.handlers
                      else st.handlers ++ [st.request_id + 1])
                   else st.handlers).filter (fun j => j ≠ st.request_id + 1),
                sent := st.sent ++ [builtRequest cfg st cmd args] } := by
  unfold invoke_with_events builtRequest
  rcases hw : waitFor aw (effectiveTimeout cfg cmd t) <;>
    simp [h, hw, dictPop_dictSet]

theorem invoke_with_events_fst (cfg : AgentConfig) (st : ClientState) (cmd : String)
    (args : Option (List (String × JVal))) (oe : Bool) (t : Option ℚ) (aw : Await)
    (h : st.ws = true) :
    (invoke_with_events cfg st cmd args oe t aw).1 =
      match waitFor aw (effectiveTimeout cfg cmd t) with
      | WaitRes.timedOut => InvokeOutcome.err (AgentError.timeoutWaiting cmd)
      | WaitRes.connLost => InvokeOutcome.err AgentError.connectionClosed
      | WaitRes.cancelled => InvokeOutcome.err AgentError.cancelled
      | WaitRes.value response => settleOutcome response := by
  unfold invoke_with_events
  rcases hw : waitFor aw (effectiveTimeout cfg cmd t) <;> simp [h, hw]

/-- Whether a frame is a decoded message carrying id `i`. -/
def frameForId (f : Frame) (i : Int) : Bool :=
  match f with
  | Frame.garbage => false
  | Frame.msg m => m.id == some i

theorem routeMsg_pending_other (st : ClientState) (data : Message)
    (st' : ClientState) (i : Int) (h : routeMsg st data = Except.ok st')
    (hid : data.id ≠ some i) :
    dictGet st'.pending i = dictGet st.pending i := by
  unfold routeMsg at h
  rcases hd : data.id with _ | rid <;> rw [hd] at h
  · cases h
    rfl
  · have hri : rid ≠ i := fun he => hid (by rw [hd, he])
    by_cases ht : data.tkind.isSome <;> simp [ht] at h
    · by_cases hc : rid ∈ st.handlers <;> simp [hc] at h <;>
        cases h <;> rfl
    · rcases hg : dictGet st.pending rid with _ | f <;> rw [hg] at h
      · cases h
        rfl
      · cases f with
        | pending =>
            simp at h
            cases h
            simp [dictGet_dictSet_ne _ _ _ _ hri]
        | result m => simp at h
        | exn e => simp at h

theorem routeMsg_result_source (st : ClientState) (data : Message)
    (st' : ClientState) (i : Int) (m : Message)
    (h : routeMsg st data = Except.ok st')
    (hr : dictGet st'.pending i = some (Fut.result m)) :
    dictGet st.pending i = some (Fut.result m) ∨ m.id = some i := by
  unfold routeMsg at h
  rcases hd : data.id with _ | rid <;> rw [hd] at h
  · cases h
    exact Or.inl hr
  · by_cases ht : data.tkind.isSome <;> simp [ht] at h
    · by_cases hc : rid ∈ st.handlers <;> simp [hc] at h <;>
        cases h <;> exact Or.inl hr
    · rcases hg : dictGet st.pending rid with _ | f <;> rw [hg] at h
      · cases h
        exact Or.inl hr
      · cases f with
        | pending =>
            simp at h
            cases h
            by_cases hri : rid = i
            · subst hri
              rw [dictGet_dictSet_eq] at hr
              cases hr
              exact Or.inr hd
            · rw [dictGet_dictSet_ne _ _ _ _ hri] at hr
              exact Or.inl hr
        | result m2 => simp at h
        | exn e => simp at h

/-- A terminal Response message for id `i`. -/
def respMsg (i : Int) (r : Option JVal) (e : Option String) : Message :=
  { id := some i, tkind := none, result := r, error := e, payload := none }

/-- A streaming Event message for id `i` of kind `k`. -/
def evMsg (i : Int) (k : String) (p : JVal) : Message :=
  { id := some i, tkind := some k, result := none, error := none, payload := some p }

/-- A connected client with one in-flight request, id 1. -/
def stOnePending : ClientState :=
  { ws := true, request_id := 1, pending := [(1, Fut.pending)],
    handlers := [], sinkTrace := [], sent := [] }

/-- A connected client whose request 1 has been settled by a first
Response but not yet retired by the waiter. -/
def stSettled : ClientState :=
  { ws := true, request_id := 1,
    pending := [(1, Fut.result (respMsg 1 (some (JVal.str "pong")) none))],
    handlers := [], sinkTrace := [], sent := [] }

/-- A connected client with request 1 in flight and an event sink
registered for it. -/
def stWithSink : ClientState :=
  { ws := true, request_id := 1, pending := [(1, Fut.pending)],
    handlers := [1], sinkTrace := [], sent := [] }

/-- C2 counterexample: with request 1 in flight, an undecodable frame
followed by the Response for id 1 crashes the receive loop at the bad
frame (the `try` catches only `ConnectionClosed`, not `JSONDecodeError`);
the Response behind it is never processed and the slot stays pending. -/
theorem c2_decode_counterexample :
    runFrames stOnePending
        [Frame.garbage, Frame.msg (respMsg 1 (some (JVal.str "pong")) none)]
      = RunOutcome.crashed LoopCrash.decodeError stOnePending
    ∧ dictGet (runFrames stOnePending
        [Frame.garbage, Frame.msg (respMsg 1 (some (JVal.str "pong")) none)]).state.pending 1
      = some Fut.pending :=
  ⟨rfl, rfl⟩

/-- C2 (amended): a frame that fails to decode raises out of the receive
loop immediately, terminating the task with the client state unchanged;
no subsequent frame is processed and no pending entry is failed. -/
theorem c2_decode_crashes_loop (st : ClientState) (rest : List Frame) :
    runFrames st (Frame.garbage :: rest)
      = RunOutcome.crashed LoopCrash.decodeError st :=
  rfl

/-- C3 counterexample: disconnecting a client with request 1 still in
flight leaves its completion slot pending — the cancellation is not the
`ConnectionClosed` the loop's handler catches, so `fail_all` does not
run and the waiter stays blocked until its own timeout. -/
theorem c3_disconnect_counterexample :
    dictGet (disconnect stOnePending).pending 1 = some Fut.pending
    ∧ (disconnect stOnePending).ws = false :=
  ⟨rfl, rfl⟩

/-- C3 (amended): `disconnect` cancels the receive loop and closes the
transport but settles nothing — the pending map is exactly as before;
only when the transport itself fails with `ConnectionClosed` does the
loop run `fail_all` once before exiting, settling every still-pending
slot with the connection-closed failure and leaving already-done slots
untouched. -/
theorem c3_teardown (st : ClientState) (i : Int) (f : Fut) :
    (disconnect st).pending = st.pending
    ∧ (dictGet st.pending i = some Fut.pending →
        dictGet (receiveLoop st [] LoopEnd.closedError).state.pending i
          = some (Fut.exn AgentError.connectionClosed))
    ∧ (dictGet st.pending i = some f → f.done = true →
        dictGet (receiveLoop st [] LoopEnd.closedError).state.pending i = some f) := by
  refine ⟨rfl, ?_, ?_⟩
  · intro h
    show dictGet (failAll st.pending) i = _
    rw [dictGet_failAll, h]
    rfl
  · intro h hd
    show dictGet (failAll st.pending) i = _
    rw [dictGet_failAll, h]
    cases f with
    | pending => cases hd
    | result m => rfl
    | exn e => rfl

theorem c3_teardown_witness :
    dictGet (receiveLoop stOnePending [] LoopEnd.closedError).state.pending 1
      = some (Fut.exn AgentError.connectionClosed)
    ∧ dictGet (receiveLoop stSettled [] LoopEnd.closedError).state.pending 1
      = some (Fut.result (respMsg 1 (some (JVal.str "pong")) none)) :=
  ⟨(c3_teardown stOnePending 1 Fut.pending).2.1 rfl,
   (c3_teardown stSettled 1
      (Fut.result (respMsg 1 (some (JVal.str "pong")) none))).2.2 rfl rfl⟩

/-- C4 counterexample: with the slot for id 1 already settled by a first
Response (entry not yet retired), routing a second Response for id 1
raises `InvalidStateError` out of `set_result` and crashes the receive
loop — it is not discarded silently. -/
theorem c4_duplicate_counterexample :
    runFrames stSettled [Frame.msg (respMsg 1 (some (JVal.str "again")) none)]
      = RunOutcome.crashed LoopCrash.invalidState stSettled :=
  rfl

/-- C4 (amended): routing a second Response for an id whose completion
slot is already settled but not yet retired raises `InvalidStateError`,
terminating the receive loop with the state unchanged (so the slot keeps
the first settlement — it is indeed never settled twice — but the loop
stops instead of discarding the duplicate). -/
theorem c4_duplicate_crashes_loop (st : ClientState) (data : Message)
    (i : Int) (f : Fut) (rest : List Frame)
    (hid : data.id = some i) (ht : data.tkind = none)
    (hp : dictGet st.pending i = some f) (hd : f.done = true) :
    runFrames st (Frame.msg data :: rest)
      = RunOutcome.crashed LoopCrash.invalidState st := by
  have hroute : routeMsg st data = Except.error LoopCrash.invalidState := by
    unfold routeMsg
    rw [hid, ht]
    simp only [Option.isSome_none, Bool.false_eq_true, if_false]
    rw [hp]
    cases f with
    | pending => cases hd
    | result m => rfl
    | exn e => rfl
  show (match stepFrame st (Frame.msg data) with
        | Except.ok st' => runFrames st' rest
        | Except.error e => RunOutcome.crashed e st) = _
  rw [show stepFrame st (Frame.msg data) = routeMsg st data from rfl, hroute]

theorem c4_duplicate_crashes_loop_witness :
    runFrames stSettled [Frame.msg (respMsg 1 (some (JVal.str "again")) none)]
      = RunOutcome.crashed LoopCrash.invalidState stSettled :=
  c4_duplicate_crashes_loop stSettled (respMsg 1 (some (JVal.str "again")) none)
    1 (Fut.result (respMsg 1 (some (JVal.str "pong")) none)) [] rfl rfl rfl rfl

/-- The client state after: construct, connect, invoke, disconnect,
reconnect, invoke again (no response ever arrives). -/
def reconnectRun : ClientState :=
  (invoke AgentConfig.default
    (connect (disconnect
      (invoke AgentConfig.default (connect initState) "ping" none none Await.never).2))
    "ping" none none Await.never).2

/-- C5 counterexample: after a disconnect/reconnect cycle the two sent
requests carry ids 1 and 2 — `connect` never resets `_request_id`, so
the first invoke after the second connect is assigned id 2, not 1. -/
theorem c5_reconnect_counterexample :
    reconnectRun.sent.map Request.id = [1, 2] :=
  rfl

/-- C5 (amended): the counter starts at 0 in the constructor and each
invoke on a live connection allocates id = counter + 1, so the first id
ever allocated is 1 and ids strictly increase and are never reused for
the lifetime of the agent object; but the counter is object-scoped, not
connection-scoped — neither `connect` nor `disconnect` resets it, so
after a reconnect ids continue from the previous value. -/
theorem c5_counter (cfg : AgentConfig) (st : ClientState) (cmd : String)
    (args : Option (List (String × JVal))) (t : Option ℚ) (aw : Await)
    (h : st.ws = true) :
    initState.request_id = 0
    ∧ (∀ s : ClientState, (connect s).request_id = s.request_id
        ∧ (disconnect s).request_id = s.request_id)
    ∧ (invoke cfg st cmd args t aw).2.request_id = st.request_id + 1
    ∧ (invoke cfg st cmd args t aw).2.sent
        = st.sent ++ [builtRequest cfg st cmd args]
    ∧ (builtRequest cfg st cmd args).id = st.request_id + 1 := by
  refine ⟨rfl, fun s => ⟨rfl, rfl⟩, ?_, ?_, rfl⟩
  · rw [invoke_snd cfg st cmd args t aw h]
  · rw [invoke_snd cfg st cmd args t aw h]

theorem c5_counter_witness :
    (invoke AgentConfig.default stOnePending "ping" none none Await.never).2.request_id
      = stOnePending.request_id + 1 :=
  (c5_counter AgentConfig.default stOnePending "ping" none none Await.never rfl).2.2.1

/-- C6: the effective timeout is the explicit override when supplied,
otherwise the long tier for commands in `LONG_RUNNING_COMMANDS` and the
short tier for the rest; and a connected `invoke` raises the timeout
error exactly when nothing settles its future within that effective
timeout. -/
theorem c6_timeout_tiers (cfg : AgentConfig) (st : ClientState) (cmd : String)
    (args : Option (List (String × JVal))) (q : ℚ) (t : Option ℚ) (aw : Await)
    (h : st.ws = true) :
    effectiveTimeout cfg cmd (some q) = q
    ∧ (cmd ∈ LONG_RUNNING_COMMANDS →
        effectiveTimeout cfg cmd none = cfg.long_timeout)
    ∧ (cmd ∉ LONG_RUNNING_COMMANDS →
        effectiveTimeout cfg cmd none = cfg.timeout)
    ∧ ((invoke cfg st cmd args t aw).1
          = InvokeOutcome.err (AgentError.timeoutWaiting cmd)
        ↔ waitFor aw (effectiveTimeout cfg cmd t) = WaitRes.timedOut) := by
  refine ⟨rfl, ?_, ?_, ?_⟩
  · intro hm
    simp [effectiveTimeout, hm]
  · intro hm
    simp [effectiveTimeout, hm]
  · rw [invoke_fst cfg st cmd args t aw h]
    rcases hw : waitFor aw (effectiveTimeout cfg cmd t) with m | _ | _ | _
    · unfold settleOutcome
      by_cases he : truthyStr m.error = true <;> simp [he]
    · simp
    · simp
    · simp

theorem c6_timeout_tiers_witness :
    effectiveTimeout AgentConfig.default "run_pipeline" none
      = AgentConfig.default.long_timeout
    ∧ effectiveTimeout AgentConfig.default "get_app_version" none
      = AgentConfig.default.timeout
    ∧ ((invoke AgentConfig.default stOnePending "get_app_version" none none
          Await.never).1
        = InvokeOutcome.err (AgentError.timeoutWaiting "get_app_version")
      ↔ waitFor Await.never
          (effectiveTimeout AgentConfig.default "get_app_version" none)
        = WaitRes.timedOut) :=
  ⟨(c6_timeout_tiers AgentConfig.default stOnePending "run_pipeline" none 1 none
      Await.never rfl).2.1 (by decide),
   (c6_timeout_tiers AgentConfig.default stOnePending "get_app_version" none 1 none
      Await.never rfl).2.2.1 (by decide),
   (c6_timeout_tiers AgentConfig.default stOnePending "get_app_version" none 1 none
      Await.never rfl).2.2.2⟩

/-- C7: when a Response settles the wait, `invoke`'s outcome is a
function of its fields — a non-empty `error` string raises the remote
error verbatim, otherwise the `result` value is returned as-is, and a
Response with neither field resolves the call with an empty result. -/
theorem c7_settlement_outcome (cfg : AgentConfig) (st : ClientState)
    (cmd : String) (args : Option (List (String × JVal))) (tol : Option ℚ)
    (t : ℚ) (m : Message) (h : st.ws = true)
    (ht : t ≤ effectiveTimeout cfg cmd tol) :
    (∀ s : String, m.error = some s → s ≠ "" →
        (invoke cfg st cmd args tol (Await.settleResult t m)).1
          = InvokeOutcome.err (AgentError.remote s))
    ∧ ((m.error = none ∨ m.error = some "") →
        (invoke cfg st cmd args tol (Await.settleResult t m)).1
          = InvokeOutcome.ok m.result)
    ∧ (m.error = none → m.result = none →
        (invoke cfg st cmd args tol (Await.settleResult t m)).1
          = InvokeOutcome.ok none) := by
  have hw : waitFor (Await.settleResult t m) (effectiveTimeout cfg cmd tol)
      = WaitRes.value m := by
    simp [waitFor, ht]
  rw [invoke_fst cfg st cmd args tol (Await.settleResult t m) h, hw]
  refine ⟨?_, ?_, ?_⟩
  · intro s hs hne
    simp [settleOutcome, truthyStr, hs, hne]
  · rintro (he | he) <;> simp [settleOutcome, truthyStr, he]
  · intro he hr
    simp [settleOutcome, truthyStr, he, hr]

theorem c7_settlement_outcome_witness :
    (invoke AgentConfig.default stOnePending "bad_cmd" none none
        (Await.settleResult 0 (respMsg 1 none (some "Unhandled command")))).1
      = InvokeOutcome.err (AgentError.remote "Unhandled command")
    ∧ (invoke AgentConfig.default stOnePending "ping" none none
        (Await.settleResult 0 (respMsg 1 (some (JVal.str "pong")) none))).1
      = InvokeOutcome.ok (some (JVal.str "pong"))
    ∧ (invoke AgentConfig.default stOnePending "ping" none none
        (Await.settleResult 0 (respMsg 1 none none))).1
      = InvokeOutcome.ok none :=
  ⟨(c7_settlement_outcome AgentConfig.default stOnePending "bad_cmd" none none 0
      (respMsg 1 none (some "Unhandled command")) rfl (by decide)).1
      "Unhandled command" rfl (by decide),
   (c7_settlement_outcome AgentConfig.default stOnePending "ping" none none 0
      (respMsg 1 (some (JVal.str "pong")) none) rfl (by decide)).2.1
      (Or.inl rfl),
   (c7_settlement_outcome AgentConfig.default stOnePending "ping" none none 0
      (respMsg 1 none none) rfl (by decide)).2.2 rfl rfl⟩

/-- C8: whatever settles or fails the wait, both `invoke` and
`invoke_with_events` retire the Pending Entry for their id in the
`finally` block — the id is absent from the pending map afterwards (the
rest of the map is just the old map without that id), and
`invoke_with_events` also deregisters its event sink. -/
theorem c8_entry_retired (cfg : AgentConfig) (st : ClientState) (cmd : String)
    (args : Option (List (String × JVal))) (oe : Bool) (t : Option ℚ)
    (aw aw2 : Await) (h : st.ws = true) :
    dictGet (invoke cfg st cmd args t aw).2.pending (st.request_id + 1) = none
    ∧ (invoke cfg st cmd args t aw).2.pending
        = dictPop st.pending (st.request_id + 1)
    ∧ dictGet (invoke_with_events cfg st cmd args oe t aw2).2.pending
        (st.request_id + 1) = none
    ∧ (st.request_id + 1) ∉ (invoke_with_events cfg st cmd args oe t aw2).2.handlers := by
  rw [invoke_snd cfg st cmd args t aw h,
      invoke_with_events_snd cfg st cmd args oe t aw2 h]
  exact ⟨dictGet_dictPop_eq _ _, rfl, dictGet_dictPop_eq _ _,
         not_mem_filter_ne _ _⟩

theorem c8_entry_retired_witness :
    dictGet (invoke AgentConfig.default stOnePending "ping" none none
        Await.never).2.pending 2 = none
    ∧ (2 : Int) ∉ (invoke_with_events AgentConfig.default stWithSink "install_brew"
        none true none (Await.cancelled 0)).2.handlers :=
  ⟨(c8_entry_retired AgentConfig.default stOnePending "ping" none false none
      Await.never Await.never rfl).1,
   (c8_entry_retired AgentConfig.default stWithSink "install_brew" none true none
      (Await.cancelled 0) (Await.cancelled 0) rfl).2.2.2⟩

/-- C1: routing never touches the pending entry of an id that the
processed frames do not carry, and an entry can only become settled with
a Response carrying exactly its own id — so an `invoke` call's outcome
depends only on the Response bearing its request id, whatever other ids'
frames arrive and in whatever order. -/
theorem c1_isolation (st : ClientState) (frames : List Frame) (i : Int) :
    ((∀ f ∈ frames, frameForId f i = false) →
        dictGet (runFrames st frames).state.pending i = dictGet st.pending i)
    ∧ (∀ m : Message,
        dictGet (runFrames st frames).state.pending i = some (Fut.result m) →
        dictGet st.pending i = some (Fut.result m) ∨ m.id = some i) := by
  induction frames generalizing st with
  | nil => exact ⟨fun _ => rfl, fun m h => Or.inl h⟩
  | cons f rest ih =>
      rcases hf : stepFrame st f with e | st'
      · have hrun : runFrames st (f :: rest) = RunOutcome.crashed e st := by
          show (match stepFrame st f with
                | Except.ok st2 => runFrames st2 rest
                | Except.error e2 => RunOutcome.crashed e2 st) = _
          rw [hf]
        rw [hrun]
        exact ⟨fun _ => rfl, fun m h => Or.inl h⟩
      · have hrun : runFrames st (f :: rest) = runFrames st' rest := by
          show (match stepFrame st f with
                | Except.ok st2 => runFrames st2 rest
                | Except.error e2 => RunOutcome.crashed e2 st) = _
          rw [hf]
        rw [hrun]
        constructor
        · intro hall
          have hstep : dictGet st'.pending i = dictGet st.pending i := by
            cases f with
            | garbage => cases hf
            | msg data =>
                have hb := hall (Frame.msg data) (List.mem_cons_self _ _)
                have hid : data.id ≠ some i := by
                  simpa [frameForId] using hb
                exact routeMsg_pending_other st data st' i hf hid
          rw [(ih st').1 (fun g hg => hall g (List.mem_cons_of_mem _ hg)), hstep]
        · intro m hm
          rcases (ih st').2 m hm with h1 | h2
          · cases f with
            | garbage => cases hf
            | msg data => exact routeMsg_result_source st data st' i m hf h1
          · exact Or.inr h2

theorem c1_isolation_witness :
    dictGet (runFrames stOnePending
        [Frame.msg (respMsg 2 (some (JVal.str "other")) none),
         Frame.msg (evMsg 3 "progress" JVal.null)]).state.pending 1
      = dictGet stOnePending.pending 1
    ∧ (dictGet stOnePending.pending 1
          = some (Fut.result (respMsg 1 (some (JVal.str "pong")) none))
        ∨ (respMsg 1 (some (JVal.str "pong")) none).id = some 1) :=
  ⟨(c1_isolation stOnePending
      [Frame.msg (respMsg 2 (some (JVal.str "other")) none),
       Frame.msg (evMsg 3 "progress" JVal.null)] 1).1 (by decide),
   (c1_isolation stOnePending
      [Frame.msg (respMsg 1 (some (JVal.str "pong")) none)] 1).2
      (respMsg 1 (some (JVal.str "pong")) none) rfl⟩

theorem runFrames_events (st : ClientState) (i : Int) (evs : List Message)
    (m : Message) (hs : i ∈ st.handlers)
    (hp : dictGet st.pending i = some Fut.pending)
    (hevs : ∀ e ∈ evs, e.tkind.isSome = true ∧ e.id = some i)
    (hmt : m.tkind = none) (hmi : m.id = some i) :
    runFrames st (evs.map Frame.msg ++ [Frame.msg m])
      = RunOutcome.ok { st with
          sinkTrace := st.sinkTrace ++ evs.map (fun e => (i, AgentEvent.from_dict e)),
          pending := dictSet st.pending i (Fut.result m) } := by
  induction evs generalizing st with
  | nil =>
      have hroute : routeMsg st m
          = Except.ok { st with pending := dictSet st.pending i (Fut.result m) } := by
        unfold routeMsg
        rw [hmi, hmt]
        simp only [Option.isSome_none, Bool.false_eq_true, if_false]
        rw [hp]
      show (match stepFrame st (Frame.msg m) with
            | Except.ok st2 => runFrames st2 []
            | Except.error e2 => RunOutcome.crashed e2 st) = _
      rw [show stepFrame st (Frame.msg m) = routeMsg st m from rfl, hroute]
      simp [runFrames]
  | cons e evs ih =>
      obtain ⟨het, hei⟩ := hevs e (List.mem_cons_self _ _)
      have hroute : routeMsg st e
          = Except.ok { st with
              sinkTrace := st.sinkTrace ++ [(i, AgentEvent.from_dict e)] } := by
        unfold routeMsg
        rw [hei]
        simp [het, hs]
      have hrun : runFrames st ((e :: evs).map Frame.msg ++ [Frame.msg m])
          = runFrames { st with
              sinkTrace := st.sinkTrace ++ [(i, AgentEvent.from_dict e)] }
              (evs.map Frame.msg ++ [Frame.msg m]) := by
        show (match stepFrame st (Frame.msg e) with
              | Except.ok st2 => runFrames st2 (evs.map Frame.msg ++ [Frame.msg m])
              | Except.error e2 => RunOutcome.crashed e2 st) = _
        rw [show stepFrame st (Frame.msg e) = routeMsg st e from rfl, hroute]
      rw [hrun,
          ih { st with sinkTrace := st.sinkTrace ++ [(i, AgentEvent.from_dict e)] }
            hs hp (fun g hg => hevs g (List.mem_cons_of_mem _ hg))]
      simp

/-- C9: with a sink registered for id `i` and its request in flight, a
run of N Events for `i` followed by the terminal Response delivers
exactly the N sink invocations, in arrival order, and settles the slot
with that Response (unblocking the waiter with its outcome); and any
Event for an id with no registered sink, or Response for an id not in
the pending map, is routed as a no-op. -/
theorem c9_event_ordering (st : ClientState) (i : Int) (evs : List Message)
    (m : Message) (hs : i ∈ st.handlers)
    (hp : dictGet st.pending i = some Fut.pending)
    (hevs : ∀ e ∈ evs, e.tkind.isSome = true ∧ e.id = some i)
    (hmt : m.tkind = none) (hmi : m.id = some i) :
    runFrames st (evs.map Frame.msg ++ [Frame.msg m])
      = RunOutcome.ok { st with
          sinkTrace := st.sinkTrace ++ evs.map (fun e => (i, AgentEvent.from_dict e)),
          pending := dictSet st.pending i (Fut.result m) }
    ∧ (∀ (st2 : ClientState) (d : Message) (j : Int), d.id = some j →
        ((d.tkind.isSome = true → j ∉ st2.handlers →
            routeMsg st2 d = Except.ok st2)
         ∧ (d.tkind = none → dictGet st2.pending j = none →
            routeMsg st2 d = Except.ok st2))) := by
  refine ⟨runFrames_events st i evs m hs hp hevs hmt hmi, ?_⟩
  intro st2 d j hj
  constructor
  · intro ht hns
    unfold routeMsg
    rw [hj]
    simp [ht, hns]
  · intro ht hg
    unfold routeMsg
    rw [hj, ht]
    simp only [Option.isSome_none, Bool.false_eq_true, if_false]
    rw [hg]

/-- The two progress events of the worked example. -/
def eventsD : List Message :=
  [ evMsg 1 "progress" (JVal.obj [("progress", JVal.num 0)]),
    evMsg 1 "progress" (JVal.obj [("progress", JVal.num 1)]) ]

/-- The terminal response of the worked example. -/
def respD : Message := respMsg 1 (some (JVal.str "ok")) none

theorem c9_event_ordering_witness :
    runFrames stWithSink (eventsD.map Frame.msg ++ [Frame.msg respD])
      = RunOutcome.ok { stWithSink with
          sinkTrace := eventsD.map (fun e => (1, AgentEvent.from_dict e)),
          pending := dictSet stWithSink.pending 1 (Fut.result respD) }
    ∧ routeMsg stOnePending (evMsg 5 "progress" JVal.null) = Except.ok stOnePending :=
  ⟨(c9_event_ordering stWithSink 1 eventsD respD (by decide) rfl
      (by decide) rfl rfl).1,
   ((c9_event_ordering stWithSink 1 eventsD respD (by decide) rfl
      (by decide) rfl rfl).2 stOnePending (evMsg 5 "progress" JVal.null) 5 rfl).1
      rfl (by decide)⟩

/-- C10: `invoke_with_events` with no event callback behaves exactly
like `invoke` on the same arguments: same outcome, and the same effect
on the connection flag, id counter, sent frames, pending map and sink
history, for every starting state and every settlement of the wait. -/
theorem c10_no_callback_refines_invoke (cfg : AgentConfig) (st : ClientState)
    (cmd : String) (args : Option (List (String × JVal))) (t : Option ℚ)
    (aw : Await) :
    (invoke_with_events cfg st cmd args false t aw).1
        = (invoke cfg st cmd args t aw).1
    ∧ (invoke_with_events cfg st cmd args false t aw).2.ws
        = (invoke cfg st cmd args t aw).2.ws
    ∧ (invoke_with_events cfg st cmd args false t aw).2.request_id
        = (invoke cfg st cmd args t aw).2.request_id
    ∧ (invoke_with_events cfg st cmd args false t aw).2.sent
        = (invoke cfg st cmd args t aw).2.sent
    ∧ (invoke_with_events cfg st cmd args false t aw).2.pending
        = (invoke cfg st cmd args t aw).2.pending
    ∧ (invoke_with_events cfg st cmd args false t aw).2.sinkTrace
        = (invoke cfg st cmd args t aw).2.sinkTrace := by
  by_cases h : st.ws = true
  · rw [invoke_fst cfg st cmd args t aw h,
        invoke_with_events_fst cfg st cmd args false t aw h,
        invoke_snd cfg st cmd args t aw h,
        invoke_with_events_snd cfg st cmd args false t aw h]
    exact ⟨rfl, rfl, rfl, rfl, rfl, rfl⟩
  · have hf : st.ws = false := by
      cases hws : st.ws
      · rfl
      · exact absurd hws h
    unfold invoke invoke_with_events
    simp [hf]

end BioVaultClient
